import Mathlib

/-!
Shallow embedding of the adaptive-difficulty / session-progression logic of
the `TherapySession` React component (frontend, `TherapySession.tsx`).

Numbers flowing through the scoring pipeline (accuracy, WAB-AQ scores,
running means) are JavaScript numbers in the source; they are modelled here
as exact rationals (`ℚ`).  External collaborators (the backend scoring,
session-start and session-complete endpoints) are modelled as explicit
parameters of type `Except Unit _`: `.ok` carries the parsed response,
`.error` stands for a rejected promise (network/server failure).

The component state modelled is the progression-relevant part of the React
state: `sessionId`, `sessionProgress`, `currentDifficulty`, `userWabScore`
and `sessionResult`.  Pure UI state (recording flags, loading spinners,
media recorder refs) and the sentence-content state (`availableSentences`,
`sentenceIndex`, `currentSentence` — opaque content fetched from the
backend) do not interact with the claims and are not part of the model;
the guard `if (!currentSentence || !sessionId) return;` at the top of
`processAudio` is modelled by its `sessionId` conjunct.
-/

namespace SpeechTherapy

/-- The difficulty tiers `'easy' | 'medium' | 'hard'` of the source. -/
inductive Difficulty : Type
  | easy
  | medium
  | hard
deriving DecidableEq, Repr

/-- Position of a tier in the order easy < medium < hard. -/
def Difficulty.rank : Difficulty → Nat
  | .easy => 0
  | .medium => 1
  | .hard => 2

/-- `getDifficultyFromWabScore` (TherapySession.tsx):
`if (wabScore >= 76) return 'hard'; if (wabScore >= 51) return 'medium';
return 'easy';` -/
def getDifficultyFromWabScore (wabScore : ℚ) : Difficulty :=
  if 76 ≤ wabScore then .hard
  else if 51 ≤ wabScore then .medium
  else .easy

/-- The `sessionProgress` state object:
`{ current: 1, total: 10, completed: 0, accuracy: 0, totalWabScore: 0 }`. -/
structure SessionProgress : Type where
  current : Nat
  total : Nat
  completed : Nat
  accuracy : ℚ
  totalWabScore : ℚ
deriving DecidableEq, Repr

/-- The initial value of `sessionProgress` (`useState` initialiser, also the
reset value used when a new session starts after a confirmed transition). -/
def initialProgress : SessionProgress :=
  { current := 1, total := 10, completed := 0, accuracy := 0, totalWabScore := 0 }

/-- The fields of the backend `SessionResult` the progression logic reads
(`transcription`, `accuracy`, `wab_score`, `severity`, `feedback`). -/
structure SessionResult : Type where
  transcription : String
  accuracy : ℚ
  wab_score : ℚ
  severity : String
  feedback : String
deriving DecidableEq, Repr

/-- The progression-relevant component state of `TherapySession`. -/
structure TherapyState : Type where
  sessionId : Option String
  sessionProgress : SessionProgress
  currentDifficulty : Difficulty
  userWabScore : ℚ
  sessionResult : Option SessionResult
deriving DecidableEq, Repr

/-- The component state right after mount, before `initializeSession`
resolves: `sessionId = null`, fresh progress, difficulty `'easy'`,
`userWabScore = user?.wabScore || 50` with the default 50. -/
def initialState : TherapyState :=
  { sessionId := none
    sessionProgress := initialProgress
    currentDifficulty := .easy
    userWabScore := 50
    sessionResult := none }

/-- The error result built in `processAudio`'s catch branch
("DO NOT use fake high scores"). -/
def errorResult : SessionResult :=
  { transcription := "[Error processing audio]"
    accuracy := 0
    wab_score := 0
    severity := "Unable to assess"
    feedback := "Error processing audio. Please check your microphone and try again." }

/-- `processAudio` (TherapySession.tsx).  `call` is the outcome of
`sessionAPI.processAudio`: `.ok result` for a successful scoring response,
`.error ()` for a failed one (the catch branch).  On success the code sets
`sessionResult`, `userWabScore`, folds the attempt into `sessionProgress`
(`completed + 1`, running-mean update of `accuracy`, `totalWabScore +
wab_score`), recomputes the average WAB score from the pre-update state
variables and adopts the freshly classified difficulty when it differs
(adopting it when equal is the identity, so the model sets it
unconditionally).  On failure only `sessionResult := errorResult` happens.
When the guard `!currentSentence || !sessionId` fires the function returns
with no state change. -/
def processAudio (st : TherapyState) (call : Except Unit SessionResult) :
    TherapyState :=
  match st.sessionId with
  | none => st
  | some _ =>
    match call with
    | .error _ => { st with sessionResult := some errorResult }
    | .ok result =>
      let newWabScore := result.wab_score
      let p := st.sessionProgress
      let p' : SessionProgress :=
        { p with
          completed := p.completed + 1
          accuracy := (p.accuracy * p.completed + result.accuracy) / (p.completed + 1)
          totalWabScore := p.totalWabScore + newWabScore }
      let avgWabScore := (p.totalWabScore + newWabScore) / ((p.completed : ℚ) + 1)
      let newDifficulty := getDifficultyFromWabScore avgWabScore
      { st with
        sessionResult := some result
        userWabScore := newWabScore
        sessionProgress := p'
        currentDifficulty := newDifficulty }

/-- The fields of the `startSession` backend response read by
`initializeSession`: `session_id` and the optional `current_difficulty`. -/
structure StartResponse : Type where
  session_id : String
  current_difficulty : Option Difficulty
deriving DecidableEq, Repr

/-- `initializeSession` (TherapySession.tsx): on success stores the new
`session_id` and, when the backend reports one, always adopts the backend's
`current_difficulty`; on failure falls back to the offline session id. -/
def initSession (st : TherapyState) (resp : Except Unit StartResponse) :
    TherapyState :=
  match resp with
  | .ok r =>
    { st with
      sessionId := some r.session_id
      currentDifficulty := r.current_difficulty.getD st.currentDifficulty }
  | .error _ => { st with sessionId := some "offline-session" }

/-- The fields of the `completeSession` backend response read by
`nextSentence`: the optional `next_difficulty` and `progression_message`. -/
structure CompletionResult : Type where
  next_difficulty : Option Difficulty
  progression_message : Option String
deriving DecidableEq, Repr

/-- Where control goes after `nextSentence`: stay on the session screen or
`navigate('/patient/dashboard')`. -/
inductive NavTarget : Type
  | stay
  | dashboard
deriving DecidableEq, Repr

/-- `nextSentence` (TherapySession.tsx).  While `current < total` it
advances the sentence counter and clears the result.  Otherwise it calls
`completeSession` (only when a `sessionId` exists); when the response
carries a `next_difficulty` different from `currentDifficulty`, a
`window.confirm` dialog (`userConfirms`) decides: on confirmation the code
adopts the new difficulty, resets `sessionProgress` to its initial value,
clears the result and re-runs `initializeSession` (`initResp` is that
call's outcome; its backend-reported difficulty wins again), staying on the
session screen; on decline — and in every other completion case, including
a failed `completeSession` call — the state is left as is and the user is
navigated to the dashboard. -/
def nextSentence (st : TherapyState) (completion : Except Unit CompletionResult)
    (userConfirms : Bool) (initResp : Except Unit StartResponse) :
    TherapyState × NavTarget :=
  if st.sessionProgress.current < st.sessionProgress.total then
    ({ st with
        sessionProgress :=
          { st.sessionProgress with current := st.sessionProgress.current + 1 }
        sessionResult := none },
      .stay)
  else
    match st.sessionId with
    | none => (st, .dashboard)
    | some _ =>
      match completion with
      | .error _ => (st, .dashboard)
      | .ok cr =>
        match cr.next_difficulty with
        | some nd =>
          if nd ≠ st.currentDifficulty then
            if userConfirms then
              (initSession
                { st with
                    currentDifficulty := nd
                    sessionProgress := initialProgress
                    sessionResult := none }
                initResp,
                .stay)
            else (st, .dashboard)
          else (st, .dashboard)
        | none => (st, .dashboard)

/-- A scoring response carrying a given score as both `accuracy` and
`wab_score` (the two numeric fields `processAudio` aggregates). -/
def mkResult (score : ℚ) : SessionResult :=
  { transcription := "", accuracy := score, wab_score := score,
    severity := "", feedback := "" }

/-- A whole run of successfully scored attempts: fold `processAudio` over a
list of scores. -/
def runAttempts (st : TherapyState) (scores : List ℚ) : TherapyState :=
  scores.foldl (fun s a => processAudio s (.ok (mkResult a))) st

/-- The states the `TherapySession` component can reach: the mount state,
then any interleaving of `initializeSession` resolutions, scored attempts
and `nextSentence` clicks, with arbitrary collaborator responses. -/
inductive Reachable : TherapyState → Prop
  | init : Reachable initialState
  | start (st : TherapyState) (resp : Except Unit StartResponse) :
      Reachable st → Reachable (initSession st resp)
  | attempt (st : TherapyState) (call : Except Unit SessionResult) :
      Reachable st → Reachable (processAudio st call)
  | advance (st : TherapyState) (completion : Except Unit CompletionResult)
      (userConfirms : Bool) (initResp : Except Unit StartResponse) :
      Reachable st →
      Reachable (nextSentence st completion userConfirms initResp).1

/-! ### Concrete fixtures used by witnesses and counterexamples -/

/-- A freshly started session: the initial state once `startSession` has
handed back a session id. -/
def st0 : TherapyState := { initialState with sessionId := some "s1" }

/-- A scoring response with accuracy and WAB score 80. -/
def r0 : SessionResult :=
  { transcription := "hello", accuracy := 80, wab_score := 80,
    severity := "Mild", feedback := "good" }

/-- A scoring response whose score 150 lies outside [0,100]. -/
def r150 : SessionResult :=
  { transcription := "x", accuracy := 150, wab_score := 150,
    severity := "Mild", feedback := "f" }

/-- A session standing at attempt 3 of 10, with 2 completed attempts. -/
def stAttempt3 : TherapyState :=
  { sessionId := some "s1"
    sessionProgress :=
      { current := 3, total := 10, completed := 2, accuracy := 70, totalWabScore := 140 }
    currentDifficulty := .medium
    userWabScore := 70
    sessionResult := none }

/-- A session at its quota (sentence 10 of 10) holding tier easy. -/
def stEnd : TherapyState :=
  { sessionId := some "s1"
    sessionProgress :=
      { current := 10, total := 10, completed := 10, accuracy := 80, totalWabScore := 450 }
    currentDifficulty := .easy
    userWabScore := 45
    sessionResult := none }

/-- A `completeSession` response reporting next tier medium. -/
def crMed : CompletionResult :=
  { next_difficulty := some .medium, progression_message := none }

/-! ### Claim theorems -/

/-- C1: the Difficulty Classifier maps an aggregate score to a tier by fixed
thresholds, inclusive on the lower bound of each band: s ≥ 76 yields hard,
51 ≤ s < 76 yields medium, s < 51 yields easy; in particular 51 maps to
medium, 50.999 to easy, 76 to hard and 75.999 to medium. -/
theorem classifier_fixed_thresholds :
    (∀ s : ℚ, 76 ≤ s → getDifficultyFromWabScore s = .hard) ∧
    (∀ s : ℚ, 51 ≤ s → s < 76 → getDifficultyFromWabScore s = .medium) ∧
    (∀ s : ℚ, s < 51 → getDifficultyFromWabScore s = .easy) ∧
    getDifficultyFromWabScore 51 = .medium ∧
    getDifficultyFromWabScore (50999 / 1000) = .easy ∧
    getDifficultyFromWabScore 76 = .hard ∧
    getDifficultyFromWabScore (75999 / 1000) = .medium := by
  refine ⟨fun s h => ?_, fun s h1 h2 => ?_, fun s h => ?_, ?_, ?_, ?_, ?_⟩
  · simp [getDifficultyFromWabScore, if_pos h]
  · have h76 : ¬ 76 ≤ s := by linarith
    simp [getDifficultyFromWabScore, h76, h1]
  · have h76 : ¬ 76 ≤ s := by linarith
    have h51 : ¬ 51 ≤ s := by linarith
    simp [getDifficultyFromWabScore, h76, h51]
  · norm_num [getDifficultyFromWabScore]
  · norm_num [getDifficultyFromWabScore]
  · norm_num [getDifficultyFromWabScore]
  · norm_num [getDifficultyFromWabScore]

/-- C8: the Difficulty Classifier is deterministic (a pure function of the
score) and monotonic: a ≤ b implies the tier of a is at most the tier of b
in the order easy < medium < hard. -/
theorem classifier_monotone (a b : ℚ) (hab : a ≤ b) :
    (getDifficultyFromWabScore a).rank ≤ (getDifficultyFromWabScore b).rank := by
  unfold getDifficultyFromWabScore
  split_ifs <;> first | decide | (exfalso; linarith)

/-- Witness for C8 at the concrete scores 50 ≤ 80. -/
theorem classifier_monotone_witness :
    (getDifficultyFromWabScore 50).rank ≤ (getDifficultyFromWabScore 80).rank :=
  classifier_monotone 50 80 (by norm_num)

/-- C2: one successful aggregation step increments the attempt count and
recomputes the running mean as (oldMean * oldCount + newScore) / (oldCount + 1). -/
theorem aggregation_step (st : TherapyState) (r : SessionResult)
    (h : st.sessionId.isSome) :
    (processAudio st (.ok r)).sessionProgress.completed =
      st.sessionProgress.completed + 1 ∧
    (processAudio st (.ok r)).sessionProgress.accuracy =
      (st.sessionProgress.accuracy * st.sessionProgress.completed + r.accuracy) /
        (st.sessionProgress.completed + 1) := by
  obtain ⟨sid, hsid⟩ := Option.isSome_iff_exists.mp h
  simp [processAudio, hsid]

/-- Witness for C2: one attempt scored 80 on a fresh session. -/
theorem aggregation_step_witness :
    (processAudio st0 (.ok r0)).sessionProgress.completed =
      st0.sessionProgress.completed + 1 ∧
    (processAudio st0 (.ok r0)).sessionProgress.accuracy =
      (st0.sessionProgress.accuracy * st0.sessionProgress.completed + r0.accuracy) /
        (st0.sessionProgress.completed + 1) :=
  aggregation_step st0 r0 rfl

/-- C3: when the scoring call fails, the controller surfaces the error
result and changes nothing else: the whole state, in particular the attempt
count and running mean, is as before, so the user may retry the attempt. -/
theorem scoring_failure_preserves_progress (st : TherapyState)
    (h : st.sessionId.isSome) :
    processAudio st (.error ()) = { st with sessionResult := some errorResult } := by
  obtain ⟨sid, hsid⟩ := Option.isSome_iff_exists.mp h
  simp [processAudio, hsid]

/-- Witness for C3: a failure on attempt 3 of 10 leaves the completed count
at 2 (the attempt is not counted). -/
theorem scoring_failure_preserves_progress_witness :
    processAudio stAttempt3 (.error ()) =
      { stAttempt3 with sessionResult := some errorResult } :=
  scoring_failure_preserves_progress stAttempt3 rfl

/-- C4 counterexample: `processAudio` takes no confirmation input, yet one
successfully scored attempt (WAB score 80) on an active easy-tier session
moves the stored tier to hard on the spot: the stored tier does not remain
unchanged until an explicit confirmation is given. -/
theorem tier_autoadvance_counterexample :
    st0.currentDifficulty = .easy ∧
    (processAudio st0 (.ok r0)).currentDifficulty = .hard := by
  refine ⟨rfl, ?_⟩
  norm_num [processAudio, st0, r0, initialState, initialProgress,
    getDifficultyFromWabScore]

/-- C4 amended: while the session is active, each successfully scored
attempt immediately sets the stored tier to the tier classified from the
updated average WAB score, with no caller confirmation; a confirmation
dialog guards only the transition offered at session completion. -/
theorem tier_follows_classified_average (st : TherapyState) (r : SessionResult)
    (h : st.sessionId.isSome) :
    (processAudio st (.ok r)).currentDifficulty =
      getDifficultyFromWabScore
        ((st.sessionProgress.totalWabScore + r.wab_score) /
          ((st.sessionProgress.completed : ℚ) + 1)) := by
  obtain ⟨sid, hsid⟩ := Option.isSome_iff_exists.mp h
  simp [processAudio, hsid]

/-- Witness for the amended C4 at a fresh session and an attempt scored 80. -/
theorem tier_follows_classified_average_witness :
    (processAudio st0 (.ok r0)).currentDifficulty =
      getDifficultyFromWabScore
        ((st0.sessionProgress.totalWabScore + r0.wab_score) /
          ((st0.sessionProgress.completed : ℚ) + 1)) :=
  tier_follows_classified_average st0 r0 rfl

/-- C5 counterexample: the `completeSession` response reports medium while
the controller holds easy, the user declines the confirmation dialog, and
the controller still holds easy — the server-reported tier is not adopted
unconditionally. -/
theorem server_tier_adoption_counterexample :
    crMed.next_difficulty = some .medium ∧
    stEnd.currentDifficulty = .easy ∧
    (nextSentence stEnd (.ok crMed) false (.error ())).1.currentDifficulty = .easy :=
  ⟨rfl, rfl, rfl⟩

/-- C5 amended: when `completeSession` reports a tier differing from the
local one, the controller adopts the server-reported tier only upon the
user's confirmation; the new session then started re-reads the tier from
the backend, whose reported value (when present) wins again, the backend
staying authoritative.  (On decline the prior tier is retained.) -/
theorem confirm_adopts_server_tier (st : TherapyState) (sid : String)
    (nd : Difficulty) (msg : Option String) (initResp : Except Unit StartResponse)
    (hq : ¬ st.sessionProgress.current < st.sessionProgress.total)
    (hs : st.sessionId = some sid)
    (hd : nd ≠ st.currentDifficulty) :
    (nextSentence st (.ok ⟨some nd, msg⟩) true initResp).1.currentDifficulty =
      (match initResp with
        | .ok r => r.current_difficulty.getD nd
        | .error _ => nd) := by
  cases initResp with
  | ok r =>
    cases hr : r.current_difficulty <;>
      simp [nextSentence, hs, hq, hd, initSession, hr]
  | error e => simp [nextSentence, hs, hq, hd, initSession]

/-- Witness for the amended C5: local tier easy, server-reported tier
medium, user confirms, re-initialization fails over to offline mode; the
controller ends up holding medium. -/
theorem confirm_adopts_server_tier_witness :
    (nextSentence stEnd (.ok ⟨some .medium, none⟩) true (.error ())).1.currentDifficulty =
      (match (Except.error () : Except Unit StartResponse) with
        | .ok r => r.current_difficulty.getD .medium
        | .error _ => .medium) :=
  confirm_adopts_server_tier stEnd "s1" .medium none (.error ())
    (by norm_num [stEnd]) rfl (by decide)

/-- C6 counterexample: the out-of-range score 150 is aggregated as 150, not
as min(100, max(0, 150)) = 100 — no clamping happens before aggregation. -/
theorem clamping_counterexample :
    (processAudio st0 (.ok r150)).sessionProgress.accuracy = 150 ∧
    min 100 (max 0 (150 : ℚ)) = 100 ∧
    (150 : ℚ) ≠ 100 := by
  refine ⟨?_, by norm_num, by norm_num⟩
  norm_num [processAudio, st0, r150, initialState, initialProgress]

/-- C6 amended: scores are aggregated exactly as received — no clamping to
[0,100] is applied anywhere, so an out-of-range input contributes its raw
value to the running mean and to the WAB total (it is neither clamped nor
rejected). -/
theorem aggregation_uses_raw_score (st : TherapyState) (r : SessionResult)
    (h : st.sessionId.isSome) :
    (processAudio st (.ok r)).sessionProgress.accuracy *
        ((st.sessionProgress.completed : ℚ) + 1) =
      st.sessionProgress.accuracy * st.sessionProgress.completed + r.accuracy ∧
    (processAudio st (.ok r)).sessionProgress.totalWabScore =
      st.sessionProgress.totalWabScore + r.wab_score := by
  obtain ⟨sid, hsid⟩ := Option.isSome_iff_exists.mp h
  have hne : ((st.sessionProgress.completed : ℚ) + 1) ≠ 0 := by positivity
  constructor
  · simp only [processAudio, hsid]
    exact div_mul_cancel₀ _ hne
  · simp [processAudio, hsid]

/-- Witness for the amended C6 at the out-of-range score 150. -/
theorem aggregation_uses_raw_score_witness :
    (processAudio st0 (.ok r150)).sessionProgress.accuracy *
        ((st0.sessionProgress.completed : ℚ) + 1) =
      st0.sessionProgress.accuracy * st0.sessionProgress.completed + r150.accuracy ∧
    (processAudio st0 (.ok r150)).sessionProgress.totalWabScore =
      st0.sessionProgress.totalWabScore + r150.wab_score :=
  aggregation_uses_raw_score st0 r150 rfl

/-- C9: when the user declines the tier transition offered at session
completion, the whole controller state — in particular the current tier —
is exactly what it was before the transition was offered. -/
theorem decline_keeps_prior_tier (st : TherapyState) (sid : String)
    (nd : Difficulty) (msg : Option String) (initResp : Except Unit StartResponse)
    (hq : ¬ st.sessionProgress.current < st.sessionProgress.total)
    (hs : st.sessionId = some sid)
    (hd : nd ≠ st.currentDifficulty) :
    (nextSentence st (.ok ⟨some nd, msg⟩) false initResp).1 = st := by
  simp [nextSentence, hs, hq, hd]

/-- Witness for C9: declining a medium offer at the end of an easy session
leaves the state untouched. -/
theorem decline_keeps_prior_tier_witness :
    (nextSentence stEnd (.ok ⟨some .medium, none⟩) false (.error ())).1 = stEnd :=
  decline_keeps_prior_tier stEnd "s1" .medium none (.error ())
    (by norm_num [stEnd]) rfl (by decide)

/-- `processAudio` never touches `sessionId`. -/
theorem processAudio_sessionId (st : TherapyState)
    (call : Except Unit SessionResult) :
    (processAudio st call).sessionId = st.sessionId := by
  cases hs : st.sessionId <;> cases call <;> simp [processAudio, hs]

/-- Folding a run of scored attempts adds the number of attempts to the
completed count and the scores' sum to `accuracy * count`. -/
theorem runAttempts_stats (scores : List ℚ) :
    ∀ st : TherapyState, st.sessionId.isSome →
      (runAttempts st scores).sessionProgress.completed =
        st.sessionProgress.completed + scores.length ∧
      (runAttempts st scores).sessionProgress.accuracy *
          ((st.sessionProgress.completed : ℚ) + scores.length) =
        st.sessionProgress.accuracy * st.sessionProgress.completed + scores.sum := by
  induction scores with
  | nil => intro st _; simp [runAttempts]
  | cons a rest ih =>
    intro st h
    obtain ⟨sid, hsid⟩ := Option.isSome_iff_exists.mp h
    have hstep : runAttempts st (a :: rest) =
        runAttempts (processAudio st (.ok (mkResult a))) rest := rfl
    set st' := processAudio st (.ok (mkResult a)) with hst'
    have h' : st'.sessionId.isSome := by
      rw [hst', processAudio_sessionId]; exact h
    obtain ⟨ihc, iha⟩ := ih st' h'
    have hc' : st'.sessionProgress.completed = st.sessionProgress.completed + 1 := by
      simp [hst', processAudio, hsid]
    have hne : ((st.sessionProgress.completed : ℚ) + 1) ≠ 0 := by positivity
    have ha' : st'.sessionProgress.accuracy =
        (st.sessionProgress.accuracy * st.sessionProgress.completed + a) /
          ((st.sessionProgress.completed : ℚ) + 1) := by
      simp [hst', processAudio, hsid, mkResult]
    constructor
    · rw [hstep, ihc, hc', List.length_cons]
      omega
    · have hacc : st'.sessionProgress.accuracy * (st'.sessionProgress.completed : ℚ) =
          st.sessionProgress.accuracy * st.sessionProgress.completed + a := by
        rw [ha', hc']
        push_cast
        rw [div_mul_cancel₀ _ hne]
      calc (runAttempts st (a :: rest)).sessionProgress.accuracy *
            ((st.sessionProgress.completed : ℚ) + (a :: rest).length)
          = (runAttempts st' rest).sessionProgress.accuracy *
              ((st'.sessionProgress.completed : ℚ) + rest.length) := by
            rw [hstep, hc']
            push_cast [List.length_cons]
            ring_nf
        _ = st'.sessionProgress.accuracy * st'.sessionProgress.completed +
              rest.sum := iha
        _ = st.sessionProgress.accuracy * st.sessionProgress.completed +
              (a :: rest).sum := by
            rw [hacc, List.sum_cons]
            ring

/-- C7 counterexample: aggregating the single out-of-range score 150 leaves
a running mean of 150, while the arithmetic mean of the clamped scores is
100 — the two differ because no clamping is performed. -/
theorem clamped_mean_counterexample :
    (runAttempts st0 [150]).sessionProgress.accuracy = 150 ∧
    ([(150 : ℚ)].map (fun s => min 100 (max 0 s))).sum /
        (([(150 : ℚ)].length : ℚ)) = 100 ∧
    (150 : ℚ) ≠ 100 := by
  refine ⟨?_, by norm_num, by norm_num⟩
  norm_num [runAttempts, List.foldl, processAudio, st0, mkResult,
    initialState, initialProgress]

/-- C7 amended: for every sequence of scores, the running mean after
aggregating the whole sequence equals the arithmetic mean of the scores
exactly as received (no clamping is applied), and the final mean is the
same for every ordering of a fixed multiset of scores. -/
theorem running_mean_is_mean_of_raw_scores (st : TherapyState)
    (h : st.sessionId.isSome)
    (hc : st.sessionProgress.completed = 0)
    (ha : st.sessionProgress.accuracy = 0) :
    (∀ scores : List ℚ,
      (runAttempts st scores).sessionProgress.accuracy =
        scores.sum / scores.length) ∧
    (∀ xs ys : List ℚ, xs.Perm ys →
      (runAttempts st xs).sessionProgress.accuracy =
        (runAttempts st ys).sessionProgress.accuracy) := by
  have key : ∀ scores : List ℚ,
      (runAttempts st scores).sessionProgress.accuracy =
        scores.sum / scores.length := by
    intro scores
    obtain ⟨_, hmul⟩ := runAttempts_stats scores st h
    rw [hc, ha] at hmul
    push_cast at hmul
    rcases Nat.eq_zero_or_pos scores.length with h0 | hpos
    · have hnil : scores = [] := List.length_eq_zero.mp h0
      subst hnil
      simp [runAttempts, ha]
    · have hlne : ((scores.length : ℚ)) ≠ 0 :=
        Nat.cast_ne_zero.mpr (Nat.pos_iff_ne_zero.mp hpos)
      rw [eq_div_iff hlne]
      simpa using hmul
  exact ⟨key, fun xs ys hp => by
    rw [key xs, key ys, hp.sum_eq, hp.length_eq]⟩

/-- Witness for the amended C7 on a fresh session. -/
theorem running_mean_is_mean_of_raw_scores_witness :
    (∀ scores : List ℚ,
      (runAttempts st0 scores).sessionProgress.accuracy =
        scores.sum / scores.length) ∧
    (∀ xs ys : List ℚ, xs.Perm ys →
      (runAttempts st0 xs).sessionProgress.accuracy =
        (runAttempts st0 ys).sessionProgress.accuracy) :=
  running_mean_is_mean_of_raw_scores st0 rfl rfl rfl

/-- C10: in every reachable controller state the sentence counter stays
within the session quota: 1 ≤ current ≤ total.  `nextSentence` increments
`current` only under the guard `current < total`; completing a confirmed
transition resets the counter to 1 of 10. -/
theorem sentence_counter_within_quota (st : TherapyState) (h : Reachable st) :
    1 ≤ st.sessionProgress.current ∧
    st.sessionProgress.current ≤ st.sessionProgress.total := by
  induction h with
  | init => exact ⟨le_refl 1, by norm_num [initialState, initialProgress]⟩
  | start st resp _ ih => cases resp <;> simpa [initSession] using ih
  | attempt st call _ ih =>
    cases hs : st.sessionId <;> cases call <;>
      simpa [processAudio, hs] using ih
  | advance st completion uc initResp _ ih =>
    by_cases hlt : st.sessionProgress.current < st.sessionProgress.total
    · have : 1 ≤ st.sessionProgress.current + 1 ∧
          st.sessionProgress.current + 1 ≤ st.sessionProgress.total := by omega
      simpa [nextSentence, hlt] using this
    · cases hs : st.sessionId with
      | none => simpa [nextSentence, hlt, hs] using ih
      | some sid =>
        cases completion with
        | error e => simpa [nextSentence, hlt, hs] using ih
        | ok cr =>
          cases hnd : cr.next_difficulty with
          | none => simpa [nextSentence, hlt, hs, hnd] using ih
          | some nd =>
            by_cases hdd : nd = st.currentDifficulty
            · simpa [nextSentence, hlt, hs, hnd, hdd] using ih
            · cases uc with
              | false => simpa [nextSentence, hlt, hs, hnd, hdd] using ih
              | true =>
                cases initResp <;>
                  simp [nextSentence, hlt, hs, hnd, hdd, initSession,
                    initialProgress]

/-- Witness for C10 at the initial state. -/
theorem sentence_counter_within_quota_witness :
    1 ≤ initialState.sessionProgress.current ∧
    initialState.sessionProgress.current ≤ initialState.sessionProgress.total :=
  sentence_counter_within_quota initialState Reachable.init

end SpeechTherapy
